import Mathlib

/-!
Verification of the service-info accumulator of `astarte-device-fdo`
(`src/astarte-device-fdo/src/srv_info.rs`).

The module filters service-info key/value entries for the `astarte:`
namespace, dispatches each entry to one of five field handlers
(`active`, `realm`, `secret`, `base_url`, `device_id`), and finalizes
the accumulated state into an `AstarteMod` record.

Modelling notes:

* The wire values are modelled by `Value`, and the external typed-value
  accessor `info.value::<T>()` of the protocol crate by `Value.asBool` /
  `Value.asText`, failing with a `Decode`-classified error on a type
  mismatch.
* The `tracing` calls (`debug!`, `warn!`, `error!`) are modelled as an
  explicit list of `Diag` events returned alongside the state, so that
  advisory-only conditions are observable in the theorems.
* The two `debug_assert!` checks (key equality at the top of each
  handler, and the URL syntax check in `base_url`) are compiled out of
  release builds; they are modelled as diagnostics
  (`Diag.assertKeyFailed`, `Diag.urlCheckFailed`) emitted when the
  asserted condition is false, so "the assert can never fire" is the
  statement that the diagnostic never occurs.
* The URL parser (`url::Url::parse`, an external crate) is modelled by
  an abstract predicate `urlOk : String → Bool` passed as a parameter;
  the code never branches on it, only the diagnostic does.
* Rust `Option::replace` sets the field to the new value and returns
  the old one; the handlers below mirror this order of operations.
-/

/-- A decoded CBOR scalar value of a service-info entry. -/
inductive Value where
  | boolean (b : Bool)
  | text (s : String)
  | uint (n : Nat)
deriving DecidableEq, Repr

/-- Error classification (`astarte_fdo_protocol::error::ErrorKind`);
`Decode` stands for the kind of the external decoder's type-mismatch
error. -/
inductive ErrorKind where
  | Invalid
  | Decode
deriving DecidableEq, Repr

/-- `astarte_fdo_protocol::Error`: a kind plus a human-readable message. -/
structure Error where
  kind : ErrorKind
  msg : String
deriving DecidableEq, Repr

/-- The typed-value accessor for booleans (`info.value::<bool>()`). -/
def Value.asBool : Value → Except Error Bool
  | .boolean b => .ok b
  | .text _ => .error ⟨.Decode, "expected bool, found text"⟩
  | .uint _ => .error ⟨.Decode, "expected bool, found uint"⟩

/-- The typed-value accessor for text (`info.value::<Cow<str>>()`). -/
def Value.asText : Value → Except Error String
  | .text s => .ok s
  | .boolean _ => .error ⟨.Decode, "expected text, found bool"⟩
  | .uint _ => .error ⟨.Decode, "expected text, found uint"⟩

/-- One service-info key/value entry (`ServiceInfoKv`). -/
structure ServiceInfoKv where
  key : String
  value : Value
deriving DecidableEq, Repr

/-- Diagnostic events, modelling the `tracing` log calls and the
(release-compiled-out) `debug_assert!` checks. -/
inductive Diag where
  | debugSkip (key : String)
  | warnUnhandled (key : String)
  | assertKeyFailed (expected actual : String)
  | urlCheckFailed (url : String)
  | errorDup (msg old : String)
  | errorUnset (msg : String)
deriving DecidableEq, Repr

/-- The validated record (`AstarteMod`). -/
structure AstarteMod where
  realm : String
  secret : String
  base_url : String
  device_id : String
deriving DecidableEq, Repr

/-- The accumulator (`AstarteModBuilder`). -/
structure AstarteModBuilder where
  active : Option Bool
  realm : Option String
  secret : Option String
  base_url : Option String
  device_id : Option String
deriving DecidableEq, Repr

/-- `AstarteModBuilder::default()`: all fields unset. -/
def AstarteModBuilder.default : AstarteModBuilder :=
  ⟨none, none, none, none, none⟩

instance {ε α : Type} [DecidableEq ε] [DecidableEq α] : DecidableEq (Except ε α)
  | .ok a, .ok b =>
    if h : a = b then .isTrue (by rw [h]) else .isFalse (by simp [h])
  | .ok _, .error _ => .isFalse (by simp)
  | .error _, .ok _ => .isFalse (by simp)
  | .error e, .error f =>
    if h : e = f then .isTrue (by rw [h]) else .isFalse (by simp [h])

/-- Result of processing entries: the (possibly mutated) accumulator,
the diagnostics emitted, and success or the first error. -/
structure ReadOut where
  state : AstarteModBuilder
  diags : List Diag
  result : Except Error Unit
deriving DecidableEq, Repr

/-- Handler `AstarteModBuilder::active`. -/
def AstarteModBuilder.activeH (b : AstarteModBuilder) (info : ServiceInfoKv) : ReadOut :=
  let aDiag := if info.key = "astarte:active" then [] else
    [Diag.assertKeyFailed "astarte:active" info.key]
  match info.value.asBool with
  | .error e => ⟨b, aDiag, .error e⟩
  | .ok active =>
    match b.active with
    | some old =>
      if old ≠ active then
        ⟨{ b with active := some active }, aDiag,
          .error ⟨.Invalid, "service info active replaced"⟩⟩
      else
        ⟨{ b with active := some active }, aDiag, .ok ()⟩
    | none => ⟨{ b with active := some active }, aDiag, .ok ()⟩

/-- Handler `AstarteModBuilder::realm`. -/
def AstarteModBuilder.realmH (b : AstarteModBuilder) (info : ServiceInfoKv) : ReadOut :=
  let aDiag := if info.key = "astarte:realm" then [] else
    [Diag.assertKeyFailed "astarte:realm" info.key]
  match info.value.asText with
  | .error e => ⟨b, aDiag, .error e⟩
  | .ok realm =>
    match b.realm with
    | some old =>
      ⟨{ b with realm := some realm },
        aDiag ++ [Diag.errorDup "multiple astarte realms" old],
        .error ⟨.Invalid, "service info realm replaced"⟩⟩
    | none => ⟨{ b with realm := some realm }, aDiag, .ok ()⟩

/-- Handler `AstarteModBuilder::secret`. -/
def AstarteModBuilder.secretH (b : AstarteModBuilder) (info : ServiceInfoKv) : ReadOut :=
  let aDiag := if info.key = "astarte:secret" then [] else
    [Diag.assertKeyFailed "astarte:secret" info.key]
  match info.value.asText with
  | .error e => ⟨b, aDiag, .error e⟩
  | .ok secret =>
    match b.secret with
    | some old =>
      ⟨{ b with secret := some secret },
        aDiag ++ [Diag.errorDup "multiple astarte secrets" old],
        .error ⟨.Invalid, "service info secret replaced"⟩⟩
    | none => ⟨{ b with secret := some secret }, aDiag, .ok ()⟩

/-- Handler `AstarteModBuilder::base_url`. The `urlOk` parameter models
`url::Url::parse(..).is_ok()`; its only effect is the advisory
diagnostic. -/
def AstarteModBuilder.base_urlH (urlOk : String → Bool) (b : AstarteModBuilder)
    (info : ServiceInfoKv) : ReadOut :=
  let aDiag := if info.key = "astarte:baseurl" then [] else
    [Diag.assertKeyFailed "astarte:baseurl" info.key]
  match info.value.asText with
  | .error e => ⟨b, aDiag, .error e⟩
  | .ok base_url =>
    let uDiag := if urlOk base_url then [] else [Diag.urlCheckFailed base_url]
    match b.base_url with
    | some old =>
      ⟨{ b with base_url := some base_url },
        aDiag ++ uDiag ++ [Diag.errorDup "multiple astarte base urls" old],
        .error ⟨.Invalid, "service info base url replaced"⟩⟩
    | none => ⟨{ b with base_url := some base_url }, aDiag ++ uDiag, .ok ()⟩

/-- Handler `AstarteModBuilder::device_id`. -/
def AstarteModBuilder.device_idH (b : AstarteModBuilder) (info : ServiceInfoKv) : ReadOut :=
  let aDiag := if info.key = "astarte:deviceid" then [] else
    [Diag.assertKeyFailed "astarte:deviceid" info.key]
  match info.value.asText with
  | .error e => ⟨b, aDiag, .error e⟩
  | .ok device_id =>
    match b.device_id with
    | some old =>
      ⟨{ b with device_id := some device_id },
        aDiag ++ [Diag.errorDup "multiple astarte device id" old],
        .error ⟨.Invalid, "service info device id replaced"⟩⟩
    | none => ⟨{ b with device_id := some device_id }, aDiag, .ok ()⟩

/-- Rust `str::starts_with`, as a prefix check on the character
sequences of the two strings. -/
def strStartsWith (s p : String) : Bool :=
  p.data.isPrefixOf s.data

/-- One iteration of `AstarteModBuilder::read`: the namespace filter
(with its debug log) followed by the key dispatch. -/
def AstarteModBuilder.readStep (urlOk : String → Bool) (b : AstarteModBuilder)
    (info : ServiceInfoKv) : ReadOut :=
  if strStartsWith info.key "astarte:" then
    if info.key = "astarte:active" then b.activeH info
    else if info.key = "astarte:realm" then b.realmH info
    else if info.key = "astarte:secret" then b.secretH info
    else if info.key = "astarte:baseurl" then b.base_urlH urlOk info
    else if info.key = "astarte:deviceid" then b.device_idH info
    else ⟨b, [Diag.warnUnhandled info.key], .ok ()⟩
  else ⟨b, [Diag.debugSkip info.key], .ok ()⟩

/-- `AstarteModBuilder::read`: process the entries in order, stopping at
the first error (the `?` operator in the `for` loop). -/
def AstarteModBuilder.read (urlOk : String → Bool) (b : AstarteModBuilder) :
    List ServiceInfoKv → ReadOut
  | [] => ⟨b, [], .ok ()⟩
  | info :: rest =>
    let out := b.readStep urlOk info
    match out.result with
    | .error e => ⟨out.state, out.diags, .error e⟩
    | .ok _ =>
      let out2 := out.state.read urlOk rest
      ⟨out2.state, out.diags ++ out2.diags, out2.result⟩

/-- `AstarteModBuilder::build_astarte`: `None` unless the active flag is
exactly `Some(true)` and all four text fields are set. -/
def AstarteModBuilder.build_astarte (b : AstarteModBuilder) : Option AstarteMod :=
  if b.active = some true then
    match b.realm, b.secret, b.base_url, b.device_id with
    | some realm, some secret, some base_url, some device_id =>
      some ⟨realm, secret, base_url, device_id⟩
    | _, _, _, _ => none
  else none

/-- `AstarteModBuilder::build`: emit a diagnostic per missing field, then
`build_astarte`, turning `None` into the generic invalid-module error. -/
def AstarteModBuilder.build (b : AstarteModBuilder) :
    List Diag × Except Error AstarteMod :=
  let d :=
    (if b.active ≠ some true then [Diag.errorUnset "active flag is unset"] else []) ++
    (if b.realm = none then [Diag.errorUnset "realm is unsetset"] else []) ++
    (if b.secret = none then [Diag.errorUnset "secret is unsetset"] else []) ++
    (if b.base_url = none then [Diag.errorUnset "base_url is not set"] else []) ++
    (if b.device_id = none then [Diag.errorUnset "device is not set"] else [])
  match b.build_astarte with
  | some m => (d, .ok m)
  | none => (d, .error ⟨.Invalid, "astarte service info module"⟩)

/-- `impl Serialize for AstarteMod`: the record serializes as the tuple
`(realm, secret, base_url, device_id)`. -/
def AstarteMod.serialize (m : AstarteMod) : List Value :=
  [Value.text m.realm, Value.text m.secret, Value.text m.base_url,
    Value.text m.device_id]

/-- `impl Deserialize for AstarteMod`: read back the four-element tuple
of text values. -/
def AstarteMod.deserialize : List Value → Except Error AstarteMod
  | [r, s, u, d] => do
    let realm ← r.asText
    let secret ← s.asText
    let base_url ← u.asText
    let device_id ← d.asText
    .ok ⟨realm, secret, base_url, device_id⟩
  | _ => .error ⟨.Decode, "expected a tuple of four text values"⟩

/-- The well-formed activation entry. -/
abbrev eActive : ServiceInfoKv := ⟨"astarte:active", .boolean true⟩

/-- A well-formed realm entry. -/
abbrev eRealm (r : String) : ServiceInfoKv := ⟨"astarte:realm", .text r⟩

/-- A well-formed secret entry. -/
abbrev eSecret (s : String) : ServiceInfoKv := ⟨"astarte:secret", .text s⟩

/-- A well-formed base-URL entry. -/
abbrev eBaseUrl (u : String) : ServiceInfoKv := ⟨"astarte:baseurl", .text u⟩

/-- A well-formed device-ID entry. -/
abbrev eDeviceId (d : String) : ServiceInfoKv := ⟨"astarte:deviceid", .text d⟩

/-- The complete well-formed entry set with the given field values, in
the reference order. -/
def entriesFive (r s u d : String) : List ServiceInfoKv :=
  [eActive, eRealm r, eSecret s, eBaseUrl u, eDeviceId d]

/-- Whether an entry's key is one of the five recognized keys. -/
def handledKey (kv : ServiceInfoKv) : Bool :=
  kv.key = "astarte:active" ∨ kv.key = "astarte:realm" ∨
    kv.key = "astarte:secret" ∨ kv.key = "astarte:baseurl" ∨
    kv.key = "astarte:deviceid"

example :
    (AstarteModBuilder.default.read (fun _ => true)
      (entriesFive "test" "s3cr3t" "http://api.astarte.localhost" "2TBn")).result
      = .ok () := by decide

example :
    ((AstarteModBuilder.default.read (fun _ => true)
      (entriesFive "test" "s3" "u" "d")).state.build).2
      = .ok ⟨"test", "s3", "u", "d"⟩ := by decide

example :
    (AstarteModBuilder.default.build).2
      = .error ⟨.Invalid, "astarte service info module"⟩ := by decide

/-! ### Dispatch and handler lemmas -/

lemma kvne_of_key {k1 k2 : String} (v1 v2 : Value) (h : k1 ≠ k2) :
    (⟨k1, v1⟩ : ServiceInfoKv) ≠ ⟨k2, v2⟩ :=
  fun hc => h (congrArg ServiceInfoKv.key hc)

lemma readStep_key_active (urlOk : String → Bool) (b : AstarteModBuilder) (v : Value) :
    b.readStep urlOk ⟨"astarte:active", v⟩ = b.activeH ⟨"astarte:active", v⟩ := by
  simp [AstarteModBuilder.readStep,
    show strStartsWith "astarte:active" "astarte:" = true from by decide]

lemma readStep_key_realm (urlOk : String → Bool) (b : AstarteModBuilder) (v : Value) :
    b.readStep urlOk ⟨"astarte:realm", v⟩ = b.realmH ⟨"astarte:realm", v⟩ := by
  simp [AstarteModBuilder.readStep,
    show strStartsWith "astarte:realm" "astarte:" = true from by decide]

lemma readStep_key_secret (urlOk : String → Bool) (b : AstarteModBuilder) (v : Value) :
    b.readStep urlOk ⟨"astarte:secret", v⟩ = b.secretH ⟨"astarte:secret", v⟩ := by
  simp [AstarteModBuilder.readStep,
    show strStartsWith "astarte:secret" "astarte:" = true from by decide]

lemma readStep_key_baseurl (urlOk : String → Bool) (b : AstarteModBuilder) (v : Value) :
    b.readStep urlOk ⟨"astarte:baseurl", v⟩ = b.base_urlH urlOk ⟨"astarte:baseurl", v⟩ := by
  simp [AstarteModBuilder.readStep,
    show strStartsWith "astarte:baseurl" "astarte:" = true from by decide]

lemma readStep_key_deviceid (urlOk : String → Bool) (b : AstarteModBuilder) (v : Value) :
    b.readStep urlOk ⟨"astarte:deviceid", v⟩ = b.device_idH ⟨"astarte:deviceid", v⟩ := by
  simp [AstarteModBuilder.readStep,
    show strStartsWith "astarte:deviceid" "astarte:" = true from by decide]

lemma build_astarte_eq_none (b : AstarteModBuilder)
    (h : b.active ≠ some true ∨ b.realm = none ∨ b.secret = none ∨
      b.base_url = none ∨ b.device_id = none) :
    b.build_astarte = none := by
  rcases b with ⟨a, r, s, u, d⟩
  rcases a with _ | a
  · simp [AstarteModBuilder.build_astarte]
  · rcases r with _ | r <;> rcases s with _ | s <;> rcases u with _ | u <;>
      rcases d with _ | d <;> cases a <;>
      simp_all [AstarteModBuilder.build_astarte]

/-! ### Claim theorems: build failure, advisory URL, duplicates, decode errors -/

/-- A trivially-accepting URL validity predicate, for concrete instances. -/
def uT : String → Bool := fun _ => true

/-- A fully-populated accumulator state, for concrete instances. -/
def bAll : AstarteModBuilder := ⟨some true, some "x", some "x", some "x", some "x"⟩

/-- Claim C2: whenever the activation flag was not observed as exactly
`true`, or any of the four text fields is absent (including the default
state after zero ingest calls), `build` fails with the single
`Invalid`-classified generic module error and returns no record. -/
theorem claim_c2_build_incomplete (b : AstarteModBuilder)
    (h : b.active ≠ some true ∨ b.realm = none ∨ b.secret = none ∨
      b.base_url = none ∨ b.device_id = none) :
    b.build.2 = .error ⟨.Invalid, "astarte service info module"⟩ := by
  have h2 := build_astarte_eq_none b h
  simp [AstarteModBuilder.build, h2]

theorem claim_c2_witness :
    (AstarteModBuilder.default.active ≠ some true ∨
      AstarteModBuilder.default.realm = none ∨ AstarteModBuilder.default.secret = none ∨
      AstarteModBuilder.default.base_url = none ∨
      AstarteModBuilder.default.device_id = none) ∧
    AstarteModBuilder.default.build.2 =
      .error ⟨.Invalid, "astarte service info module"⟩ :=
  ⟨Or.inl (by decide),
    claim_c2_build_incomplete AstarteModBuilder.default (Or.inl (by decide))⟩

/-- Claim C3: a base-URL entry whose text fails URL-syntax validation is
still ingested successfully and accepted into the accumulator; the
failure is observable only as a diagnostic, never as a hard error. -/
theorem claim_c3_url_advisory (urlOk : String → Bool) (b : AstarteModBuilder) (v : String)
    (hurl : urlOk v = false) (hb : b.base_url = none) :
    b.readStep urlOk ⟨"astarte:baseurl", .text v⟩ =
      ⟨{ b with base_url := some v }, [Diag.urlCheckFailed v], .ok ()⟩ := by
  rw [readStep_key_baseurl]
  simp [AstarteModBuilder.base_urlH, Value.asText, hurl, hb]

theorem claim_c3_witness :
    (fun _ : String => false) "not a url" = false ∧
    AstarteModBuilder.default.base_url = none ∧
    AstarteModBuilder.default.readStep (fun _ => false)
        ⟨"astarte:baseurl", .text "not a url"⟩ =
      ⟨⟨none, none, none, some "not a url", none⟩,
        [Diag.urlCheckFailed "not a url"], .ok ()⟩ :=
  ⟨rfl, rfl,
    claim_c3_url_advisory (fun _ => false) AstarteModBuilder.default "not a url" rfl rfl⟩

/-- Claim C4: for each of the four text fields, ingesting a second
occurrence fails with the `Invalid`-classified duplicate-field error,
regardless of whether the new value equals the recorded one. -/
theorem claim_c4_duplicate_text_fields (urlOk : String → Bool) (b : AstarteModBuilder)
    (old v : String) :
    (b.realm = some old → (b.readStep urlOk ⟨"astarte:realm", .text v⟩).result =
      .error ⟨.Invalid, "service info realm replaced"⟩) ∧
    (b.secret = some old → (b.readStep urlOk ⟨"astarte:secret", .text v⟩).result =
      .error ⟨.Invalid, "service info secret replaced"⟩) ∧
    (b.base_url = some old → (b.readStep urlOk ⟨"astarte:baseurl", .text v⟩).result =
      .error ⟨.Invalid, "service info base url replaced"⟩) ∧
    (b.device_id = some old → (b.readStep urlOk ⟨"astarte:deviceid", .text v⟩).result =
      .error ⟨.Invalid, "service info device id replaced"⟩) := by
  refine ⟨fun h => ?_, fun h => ?_, fun h => ?_, fun h => ?_⟩
  · rw [readStep_key_realm]; simp [AstarteModBuilder.realmH, Value.asText, h]
  · rw [readStep_key_secret]; simp [AstarteModBuilder.secretH, Value.asText, h]
  · rw [readStep_key_baseurl]; simp [AstarteModBuilder.base_urlH, Value.asText, h]
  · rw [readStep_key_deviceid]; simp [AstarteModBuilder.device_idH, Value.asText, h]

theorem claim_c4_witness :
    bAll.realm = some "x" ∧
    (bAll.readStep uT ⟨"astarte:realm", .text "x"⟩).result =
      .error ⟨.Invalid, "service info realm replaced"⟩ ∧
    (bAll.readStep uT ⟨"astarte:secret", .text "x"⟩).result =
      .error ⟨.Invalid, "service info secret replaced"⟩ ∧
    (bAll.readStep uT ⟨"astarte:baseurl", .text "x"⟩).result =
      .error ⟨.Invalid, "service info base url replaced"⟩ ∧
    (bAll.readStep uT ⟨"astarte:deviceid", .text "x"⟩).result =
      .error ⟨.Invalid, "service info device id replaced"⟩ :=
  ⟨rfl, (claim_c4_duplicate_text_fields uT bAll "x" "x").1 rfl,
    (claim_c4_duplicate_text_fields uT bAll "x" "x").2.1 rfl,
    (claim_c4_duplicate_text_fields uT bAll "x" "x").2.2.1 rfl,
    (claim_c4_duplicate_text_fields uT bAll "x" "x").2.2.2 rfl⟩

/-- Claim C5: a repeated activation entry with the same boolean value is
idempotent (success, state unchanged), while a conflicting boolean value
fails with the `Invalid`-classified replaced-flag error. -/
theorem claim_c5_active_idempotent (urlOk : String → Bool) (b : AstarteModBuilder)
    (x y : Bool) (hx : b.active = some x) :
    ((b.readStep urlOk ⟨"astarte:active", .boolean x⟩).result = .ok () ∧
      (b.readStep urlOk ⟨"astarte:active", .boolean x⟩).state = b) ∧
    (x ≠ y → (b.readStep urlOk ⟨"astarte:active", .boolean y⟩).result =
      .error ⟨.Invalid, "service info active replaced"⟩) := by
  constructor
  · rw [readStep_key_active]
    rcases b with ⟨a, r, s, u, d⟩
    simp only [AstarteModBuilder.active] at hx
    subst hx
    simp [AstarteModBuilder.activeH, Value.asBool]
  · intro hxy
    rw [readStep_key_active]
    simp [AstarteModBuilder.activeH, Value.asBool, hx, hxy]

theorem claim_c5_witness :
    bAll.active = some true ∧
    ((bAll.readStep uT ⟨"astarte:active", .boolean true⟩).result = .ok () ∧
      (bAll.readStep uT ⟨"astarte:active", .boolean true⟩).state = bAll) ∧
    (bAll.readStep uT ⟨"astarte:active", .boolean false⟩).result =
      .error ⟨.Invalid, "service info active replaced"⟩ :=
  ⟨rfl, (claim_c5_active_idempotent uT bAll true false rfl).1,
    (claim_c5_active_idempotent uT bAll true false rfl).2 (by decide)⟩

/-- Claim C7: a recognized key whose value does not decode to the
expected scalar type makes `read` fail with exactly the decode error
produced by the typed-value accessor, with the state untouched. -/
theorem claim_c7_decode_propagated (urlOk : String → Bool) (b : AstarteModBuilder)
    (v : Value) (e : Error) :
    (v.asBool = .error e →
      b.read urlOk [⟨"astarte:active", v⟩] = ⟨b, [], .error e⟩) ∧
    (v.asText = .error e →
      b.read urlOk [⟨"astarte:realm", v⟩] = ⟨b, [], .error e⟩ ∧
      b.read urlOk [⟨"astarte:secret", v⟩] = ⟨b, [], .error e⟩ ∧
      b.read urlOk [⟨"astarte:baseurl", v⟩] = ⟨b, [], .error e⟩ ∧
      b.read urlOk [⟨"astarte:deviceid", v⟩] = ⟨b, [], .error e⟩) := by
  constructor
  · intro h
    simp only [AstarteModBuilder.read, readStep_key_active]
    simp [AstarteModBuilder.activeH, h]
  · intro h
    refine ⟨?_, ?_, ?_, ?_⟩
    · simp only [AstarteModBuilder.read, readStep_key_realm]
      simp [AstarteModBuilder.realmH, h]
    · simp only [AstarteModBuilder.read, readStep_key_secret]
      simp [AstarteModBuilder.secretH, h]
    · simp only [AstarteModBuilder.read, readStep_key_baseurl]
      simp [AstarteModBuilder.base_urlH, h]
    · simp only [AstarteModBuilder.read, readStep_key_deviceid]
      simp [AstarteModBuilder.device_idH, h]

theorem claim_c7_witness :
    (Value.text "t").asBool = .error ⟨.Decode, "expected bool, found text"⟩ ∧
    (Value.boolean true).asText = .error ⟨.Decode, "expected text, found bool"⟩ ∧
    AstarteModBuilder.default.read uT [⟨"astarte:active", .text "t"⟩] =
      ⟨AstarteModBuilder.default, [], .error ⟨.Decode, "expected bool, found text"⟩⟩ ∧
    AstarteModBuilder.default.read uT [⟨"astarte:realm", .boolean true⟩] =
      ⟨AstarteModBuilder.default, [], .error ⟨.Decode, "expected text, found bool"⟩⟩ :=
  ⟨rfl, rfl,
    (claim_c7_decode_propagated uT AstarteModBuilder.default (.text "t")
      ⟨.Decode, "expected bool, found text"⟩).1 rfl,
    ((claim_c7_decode_propagated uT AstarteModBuilder.default (.boolean true)
      ⟨.Decode, "expected text, found bool"⟩).2 rfl).1⟩

/-- Claim C8: serializing a record to the four-element tuple wire form
and deserializing it back reconstructs a structurally equal record. -/
theorem claim_c8_roundtrip (m : AstarteMod) :
    AstarteMod.deserialize m.serialize = .ok m := rfl

/-- Claim C9: when a handler reports a duplicate (or conflicting
activation) error, the accumulator has already been mutated: the field
holds the second, offending value, not the originally recorded one. -/
theorem claim_c9_error_path_mutates (urlOk : String → Bool) (b : AstarteModBuilder)
    (x y : Bool) (old v : String) :
    (b.active = some x → x ≠ y →
      (b.readStep urlOk ⟨"astarte:active", .boolean y⟩).state.active = some y ∧
      (b.readStep urlOk ⟨"astarte:active", .boolean y⟩).result.isOk = false) ∧
    (b.realm = some old →
      (b.readStep urlOk ⟨"astarte:realm", .text v⟩).state.realm = some v ∧
      (b.readStep urlOk ⟨"astarte:realm", .text v⟩).result.isOk = false) ∧
    (b.secret = some old →
      (b.readStep urlOk ⟨"astarte:secret", .text v⟩).state.secret = some v ∧
      (b.readStep urlOk ⟨"astarte:secret", .text v⟩).result.isOk = false) ∧
    (b.base_url = some old →
      (b.readStep urlOk ⟨"astarte:baseurl", .text v⟩).state.base_url = some v ∧
      (b.readStep urlOk ⟨"astarte:baseurl", .text v⟩).result.isOk = false) ∧
    (b.device_id = some old →
      (b.readStep urlOk ⟨"astarte:deviceid", .text v⟩).state.device_id = some v ∧
      (b.readStep urlOk ⟨"astarte:deviceid", .text v⟩).result.isOk = false) := by
  refine ⟨fun hx hxy => ?_, fun h => ?_, fun h => ?_, fun h => ?_, fun h => ?_⟩
  · rw [readStep_key_active]
    simp [AstarteModBuilder.activeH, Value.asBool, hx, hxy, Except.isOk, Except.toBool]
  · rw [readStep_key_realm]
    simp [AstarteModBuilder.realmH, Value.asText, h, Except.isOk, Except.toBool]
  · rw [readStep_key_secret]
    simp [AstarteModBuilder.secretH, Value.asText, h, Except.isOk, Except.toBool]
  · rw [readStep_key_baseurl]
    simp [AstarteModBuilder.base_urlH, Value.asText, h, Except.isOk, Except.toBool]
  · rw [readStep_key_deviceid]
    simp [AstarteModBuilder.device_idH, Value.asText, h, Except.isOk, Except.toBool]

theorem claim_c9_witness :
    bAll.realm = some "x" ∧
    (bAll.readStep uT ⟨"astarte:realm", .text "y"⟩).state.realm = some "y" ∧
    (bAll.readStep uT ⟨"astarte:realm", .text "y"⟩).result.isOk = false ∧
    (bAll.readStep uT ⟨"astarte:active", .boolean false⟩).state.active = some false ∧
    (bAll.readStep uT ⟨"astarte:active", .boolean false⟩).result.isOk = false :=
  ⟨rfl,
    ((claim_c9_error_path_mutates uT bAll true false "x" "y").2.1 rfl).1,
    ((claim_c9_error_path_mutates uT bAll true false "x" "y").2.1 rfl).2,
    ((claim_c9_error_path_mutates uT bAll true false "x" "y").1 rfl (by decide)).1,
    ((claim_c9_error_path_mutates uT bAll true false "x" "y").1 rfl (by decide)).2⟩

/-! ### Unrecognized entries and the key-equality assertion -/

lemma readStep_unhandled (urlOk : String → Bool) (b : AstarteModBuilder)
    (kv : ServiceInfoKv) (h : handledKey kv = false) :
    (b.readStep urlOk kv).state = b ∧ (b.readStep urlOk kv).result = .ok () := by
  simp only [handledKey, decide_eq_false_iff_not, not_or] at h
  obtain ⟨h1, h2, h3, h4, h5⟩ := h
  simp only [AstarteModBuilder.readStep, if_neg h1, if_neg h2, if_neg h3, if_neg h4,
    if_neg h5]
  split
  · exact ⟨rfl, rfl⟩
  · exact ⟨rfl, rfl⟩

lemma read_filter_eq (urlOk : String → Bool) (l : List ServiceInfoKv) :
    ∀ b : AstarteModBuilder,
      (b.read urlOk l).state = (b.read urlOk (l.filter handledKey)).state ∧
      (b.read urlOk l).result = (b.read urlOk (l.filter handledKey)).result := by
  induction l with
  | nil => exact fun b => ⟨rfl, rfl⟩
  | cons kv rest ih =>
    intro b
    by_cases hk : handledKey kv
    · rw [List.filter_cons_of_pos hk]
      simp only [AstarteModBuilder.read]
      rcases hres : (b.readStep urlOk kv).result with e | u
      · simp [hres]
      · simp only [hres]
        exact ⟨(ih _).1, (ih _).2⟩
    · rw [List.filter_cons_of_neg (by simpa using hk)]
      obtain ⟨hs, hr⟩ := readStep_unhandled urlOk b kv (by simpa using hk)
      simp only [AstarteModBuilder.read, hr, hs]
      exact ⟨(ih b).1, (ih b).2⟩

/-- Claim C6: entries outside the namespace, and namespaced entries with
an unrecognized suffix, never fail and leave the accumulator unchanged;
the other entries parse to the same state and result as if the
unrecognized ones were absent. -/
theorem claim_c6_foreign_ignored (urlOk : String → Bool) (b : AstarteModBuilder)
    (kv : ServiceInfoKv) (l : List ServiceInfoKv) (h : handledKey kv = false) :
    (b.readStep urlOk kv).state = b ∧ (b.readStep urlOk kv).result = .ok () ∧
    (b.read urlOk l).state = (b.read urlOk (l.filter handledKey)).state ∧
    (b.read urlOk l).result = (b.read urlOk (l.filter handledKey)).result := by
  obtain ⟨hs, hr⟩ := readStep_unhandled urlOk b kv h
  exact ⟨hs, hr, (read_filter_eq urlOk l b).1, (read_filter_eq urlOk l b).2⟩

theorem claim_c6_witness :
    handledKey ⟨"foo:bar", .text "z"⟩ = false ∧
    (AstarteModBuilder.default.readStep uT ⟨"foo:bar", .text "z"⟩).state =
      AstarteModBuilder.default ∧
    (AstarteModBuilder.default.readStep uT ⟨"foo:bar", .text "z"⟩).result = .ok () ∧
    (AstarteModBuilder.default.read uT
        [⟨"foo:bar", .text "z"⟩, ⟨"astarte:realm", .text "a"⟩]).state =
      (AstarteModBuilder.default.read uT
        ([⟨"foo:bar", .text "z"⟩, ⟨"astarte:realm", .text "a"⟩].filter handledKey)).state ∧
    (AstarteModBuilder.default.read uT
        [⟨"foo:bar", .text "z"⟩, ⟨"astarte:realm", .text "a"⟩]).result =
      (AstarteModBuilder.default.read uT
        ([⟨"foo:bar", .text "z"⟩, ⟨"astarte:realm", .text "a"⟩].filter handledKey)).result :=
  ⟨by decide,
    (claim_c6_foreign_ignored uT AstarteModBuilder.default ⟨"foo:bar", .text "z"⟩
      [⟨"foo:bar", .text "z"⟩, ⟨"astarte:realm", .text "a"⟩] (by decide)).1,
    (claim_c6_foreign_ignored uT AstarteModBuilder.default ⟨"foo:bar", .text "z"⟩
      [⟨"foo:bar", .text "z"⟩, ⟨"astarte:realm", .text "a"⟩] (by decide)).2.1,
    (claim_c6_foreign_ignored uT AstarteModBuilder.default ⟨"foo:bar", .text "z"⟩
      [⟨"foo:bar", .text "z"⟩, ⟨"astarte:realm", .text "a"⟩] (by decide)).2.2.1,
    (claim_c6_foreign_ignored uT AstarteModBuilder.default ⟨"foo:bar", .text "z"⟩
      [⟨"foo:bar", .text "z"⟩, ⟨"astarte:realm", .text "a"⟩] (by decide)).2.2.2⟩

lemma activeH_no_assert (b : AstarteModBuilder) (v : Value) (x y : String) :
    Diag.assertKeyFailed x y ∉ (b.activeH ⟨"astarte:active", v⟩).diags := by
  rcases v with bv | sv | nv <;> rcases hb : b.active with _ | ob <;>
    simp [AstarteModBuilder.activeH, Value.asBool, hb, apply_ite ReadOut.diags]

lemma realmH_no_assert (b : AstarteModBuilder) (v : Value) (x y : String) :
    Diag.assertKeyFailed x y ∉ (b.realmH ⟨"astarte:realm", v⟩).diags := by
  rcases v with bv | sv | nv <;> rcases hb : b.realm with _ | ob <;>
    simp [AstarteModBuilder.realmH, Value.asText, hb]

lemma secretH_no_assert (b : AstarteModBuilder) (v : Value) (x y : String) :
    Diag.assertKeyFailed x y ∉ (b.secretH ⟨"astarte:secret", v⟩).diags := by
  rcases v with bv | sv | nv <;> rcases hb : b.secret with _ | ob <;>
    simp [AstarteModBuilder.secretH, Value.asText, hb]

lemma base_urlH_no_assert (urlOk : String → Bool) (b : AstarteModBuilder) (v : Value)
    (x y : String) :
    Diag.assertKeyFailed x y ∉ (b.base_urlH urlOk ⟨"astarte:baseurl", v⟩).diags := by
  rcases v with bv | sv | nv
  · simp [AstarteModBuilder.base_urlH, Value.asText]
  · rcases hb : b.base_url with _ | ob <;> by_cases hu : urlOk sv <;>
      simp [AstarteModBuilder.base_urlH, Value.asText, hb, hu]
  · simp [AstarteModBuilder.base_urlH, Value.asText]

lemma device_idH_no_assert (b : AstarteModBuilder) (v : Value) (x y : String) :
    Diag.assertKeyFailed x y ∉ (b.device_idH ⟨"astarte:deviceid", v⟩).diags := by
  rcases v with bv | sv | nv <;> rcases hb : b.device_id with _ | ob <;>
    simp [AstarteModBuilder.device_idH, Value.asText, hb]

lemma readStep_no_assert (urlOk : String → Bool) (b : AstarteModBuilder)
    (kv : ServiceInfoKv) (x y : String) :
    Diag.assertKeyFailed x y ∉ (b.readStep urlOk kv).diags := by
  obtain ⟨k, v⟩ := kv
  by_cases h1 : k = "astarte:active"
  · subst h1; rw [readStep_key_active]; exact activeH_no_assert b v x y
  by_cases h2 : k = "astarte:realm"
  · subst h2; rw [readStep_key_realm]; exact realmH_no_assert b v x y
  by_cases h3 : k = "astarte:secret"
  · subst h3; rw [readStep_key_secret]; exact secretH_no_assert b v x y
  by_cases h4 : k = "astarte:baseurl"
  · subst h4; rw [readStep_key_baseurl]; exact base_urlH_no_assert urlOk b v x y
  by_cases h5 : k = "astarte:deviceid"
  · subst h5; rw [readStep_key_deviceid]; exact device_idH_no_assert b v x y
  simp only [AstarteModBuilder.readStep, if_neg h1, if_neg h2, if_neg h3, if_neg h4,
    if_neg h5]
  split
  · simp
  · simp

/-- Claim C10: whenever a field handler is invoked through the key
dispatch of `read`, the entry key is exactly the one the handler
expects, so the key-equality assertion can never fail on any input
sequence processed via `read`. -/
theorem claim_c10_dispatch_key_consistent (urlOk : String → Bool) (b : AstarteModBuilder)
    (l : List ServiceInfoKv) (x y : String) :
    Diag.assertKeyFailed x y ∉ (b.read urlOk l).diags := by
  induction l generalizing b with
  | nil => simp [AstarteModBuilder.read]
  | cons kv rest ih =>
    simp only [AstarteModBuilder.read]
    rcases hres : (b.readStep urlOk kv).result with e | u
    · simp only [hres]
      exact readStep_no_assert urlOk b kv x y
    · simp only [hres]
      simp only [ReadOut.diags, List.mem_append, not_or]
      exact ⟨readStep_no_assert urlOk b kv x y, ih _⟩

/-! ### Order-independence of a complete well-formed entry set -/

lemma readStep_activeE (urlOk : String → Bool) (b : AstarteModBuilder)
    (h : b.active = none) :
    b.readStep urlOk eActive = ⟨{ b with active := some true }, [], .ok ()⟩ := by
  rw [readStep_key_active]
  simp [AstarteModBuilder.activeH, Value.asBool, h]

lemma readStep_realmE (urlOk : String → Bool) (b : AstarteModBuilder) (r : String)
    (h : b.realm = none) :
    b.readStep urlOk (eRealm r) = ⟨{ b with realm := some r }, [], .ok ()⟩ := by
  rw [readStep_key_realm]
  simp [AstarteModBuilder.realmH, Value.asText, h]

lemma readStep_secretE (urlOk : String → Bool) (b : AstarteModBuilder) (s : String)
    (h : b.secret = none) :
    b.readStep urlOk (eSecret s) = ⟨{ b with secret := some s }, [], .ok ()⟩ := by
  rw [readStep_key_secret]
  simp [AstarteModBuilder.secretH, Value.asText, h]

lemma readStep_baseurlE (urlOk : String → Bool) (b : AstarteModBuilder) (u : String)
    (h : b.base_url = none) :
    b.readStep urlOk (eBaseUrl u) =
      ⟨{ b with base_url := some u },
        if urlOk u then [] else [Diag.urlCheckFailed u], .ok ()⟩ := by
  rw [readStep_key_baseurl]
  simp [AstarteModBuilder.base_urlH, Value.asText, h]

lemma readStep_deviceidE (urlOk : String → Bool) (b : AstarteModBuilder) (d : String)
    (h : b.device_id = none) :
    b.readStep urlOk (eDeviceId d) = ⟨{ b with device_id := some d }, [], .ok ()⟩ := by
  rw [readStep_key_deviceid]
  simp [AstarteModBuilder.device_idH, Value.asText, h]

lemma entriesFive_nodup (r s u d : String) : (entriesFive r s u d).Nodup := by
  apply List.Nodup.of_map ServiceInfoKv.key
  have hm : ((entriesFive r s u d).map ServiceInfoKv.key) =
      ["astarte:active", "astarte:realm", "astarte:secret", "astarte:baseurl",
        "astarte:deviceid"] := rfl
  rw [hm]
  decide

lemma read_setters (urlOk : String → Bool) (r s u d : String) :
    ∀ l : List ServiceInfoKv, l.Nodup →
      (∀ e ∈ l, e ∈ entriesFive r s u d) →
      ∀ b : AstarteModBuilder,
        (eActive ∈ l → b.active = none) →
        (eRealm r ∈ l → b.realm = none) →
        (eSecret s ∈ l → b.secret = none) →
        (eBaseUrl u ∈ l → b.base_url = none) →
        (eDeviceId d ∈ l → b.device_id = none) →
        (b.read urlOk l).result = .ok () ∧
        (b.read urlOk l).state =
          ⟨if eActive ∈ l then some true else b.active,
           if eRealm r ∈ l then some r else b.realm,
           if eSecret s ∈ l then some s else b.secret,
           if eBaseUrl u ∈ l then some u else b.base_url,
           if eDeviceId d ∈ l then some d else b.device_id⟩ := by
  intro l
  induction l with
  | nil =>
    intro _ _ b _ _ _ _ _
    constructor
    · rfl
    · simp [AstarteModBuilder.read]
  | cons kv rest ih =>
    intro hnd hmem b hA hR hS hU hD
    have hkv : kv ∈ entriesFive r s u d := hmem kv (List.mem_cons_self kv rest)
    have hnd' : rest.Nodup := (List.nodup_cons.mp hnd).2
    have hkvrest : kv ∉ rest := (List.nodup_cons.mp hnd).1
    have hmem' : ∀ e ∈ rest, e ∈ entriesFive r s u d :=
      fun e he => hmem e (List.mem_cons_of_mem kv he)
    simp only [entriesFive, List.mem_cons, List.not_mem_nil, or_false] at hkv
    rcases hkv with hkv | hkv | hkv | hkv | hkv
    · subst hkv
      have hb : b.active = none := hA (List.mem_cons_self _ _)
      simp only [AstarteModBuilder.read, readStep_activeE urlOk b hb]
      obtain ⟨ihr, ihs⟩ := ih hnd' hmem' { b with active := some true }
        (fun h2 => absurd h2 hkvrest)
        (fun h2 => hR (List.mem_cons_of_mem _ h2))
        (fun h2 => hS (List.mem_cons_of_mem _ h2))
        (fun h2 => hU (List.mem_cons_of_mem _ h2))
        (fun h2 => hD (List.mem_cons_of_mem _ h2))
      refine ⟨ihr, ?_⟩
      rw [ihs]
      simp [List.mem_cons]
    · subst hkv
      have hb : b.realm = none := hR (List.mem_cons_self _ _)
      simp only [AstarteModBuilder.read, readStep_realmE urlOk b r hb]
      obtain ⟨ihr, ihs⟩ := ih hnd' hmem' { b with realm := some r }
        (fun h2 => hA (List.mem_cons_of_mem _ h2))
        (fun h2 => absurd h2 hkvrest)
        (fun h2 => hS (List.mem_cons_of_mem _ h2))
        (fun h2 => hU (List.mem_cons_of_mem _ h2))
        (fun h2 => hD (List.mem_cons_of_mem _ h2))
      refine ⟨ihr, ?_⟩
      rw [ihs]
      simp [List.mem_cons]
    · subst hkv
      have hb : b.secret = none := hS (List.mem_cons_self _ _)
      simp only [AstarteModBuilder.read, readStep_secretE urlOk b s hb]
      obtain ⟨ihr, ihs⟩ := ih hnd' hmem' { b with secret := some s }
        (fun h2 => hA (List.mem_cons_of_mem _ h2))
        (fun h2 => hR (List.mem_cons_of_mem _ h2))
        (fun h2 => absurd h2 hkvrest)
        (fun h2 => hU (List.mem_cons_of_mem _ h2))
        (fun h2 => hD (List.mem_cons_of_mem _ h2))
      refine ⟨ihr, ?_⟩
      rw [ihs]
      simp [List.mem_cons]
    · subst hkv
      have hb : b.base_url = none := hU (List.mem_cons_self _ _)
      simp only [AstarteModBuilder.read, readStep_baseurlE urlOk b u hb]
      obtain ⟨ihr, ihs⟩ := ih hnd' hmem' { b with base_url := some u }
        (fun h2 => hA (List.mem_cons_of_mem _ h2))
        (fun h2 => hR (List.mem_cons_of_mem _ h2))
        (fun h2 => hS (List.mem_cons_of_mem _ h2))
        (fun h2 => absurd h2 hkvrest)
        (fun h2 => hD (List.mem_cons_of_mem _ h2))
      refine ⟨ihr, ?_⟩
      rw [ihs]
      simp [List.mem_cons]
    · subst hkv
      have hb : b.device_id = none := hD (List.mem_cons_self _ _)
      simp only [AstarteModBuilder.read, readStep_deviceidE urlOk b d hb]
      obtain ⟨ihr, ihs⟩ := ih hnd' hmem' { b with device_id := some d }
        (fun h2 => hA (List.mem_cons_of_mem _ h2))
        (fun h2 => hR (List.mem_cons_of_mem _ h2))
        (fun h2 => hS (List.mem_cons_of_mem _ h2))
        (fun h2 => hU (List.mem_cons_of_mem _ h2))
        (fun h2 => absurd h2 hkvrest)
      refine ⟨ihr, ?_⟩
      rw [ihs]
      simp [List.mem_cons]

/-- Claim C1: for any permutation of a complete well-formed entry set
(activation `true` plus one text occurrence of each of realm, secret,
base URL and device ID), `read` from the default accumulator succeeds
and `build` returns the record holding exactly the supplied values,
independently of the ingestion order. -/
theorem claim_c1_complete_set (urlOk : String → Bool) (r s u d : String)
    (l : List ServiceInfoKv) (hperm : l.Perm (entriesFive r s u d)) :
    (AstarteModBuilder.default.read urlOk l).result = .ok () ∧
    ((AstarteModBuilder.default.read urlOk l).state.build).2 = .ok ⟨r, s, u, d⟩ := by
  have hnd : l.Nodup := hperm.nodup_iff.mpr (entriesFive_nodup r s u d)
  have hmem : ∀ e ∈ l, e ∈ entriesFive r s u d := fun e he => hperm.mem_iff.mp he
  have hA : eActive ∈ l := hperm.mem_iff.mpr (by simp [entriesFive])
  have hR : eRealm r ∈ l := hperm.mem_iff.mpr (by simp [entriesFive])
  have hS : eSecret s ∈ l := hperm.mem_iff.mpr (by simp [entriesFive])
  have hU : eBaseUrl u ∈ l := hperm.mem_iff.mpr (by simp [entriesFive])
  have hD : eDeviceId d ∈ l := hperm.mem_iff.mpr (by simp [entriesFive])
  obtain ⟨hres, hstate⟩ := read_setters urlOk r s u d l hnd hmem AstarteModBuilder.default
    (fun _ => rfl) (fun _ => rfl) (fun _ => rfl) (fun _ => rfl) (fun _ => rfl)
  refine ⟨hres, ?_⟩
  rw [hstate, if_pos hA, if_pos hR, if_pos hS, if_pos hU, if_pos hD]
  simp [AstarteModBuilder.build, AstarteModBuilder.build_astarte]

/-- A shuffled complete entry set, for the concrete instance. -/
def lw : List ServiceInfoKv :=
  [eDeviceId "2TBn", eRealm "test", eActive, eBaseUrl "http://x", eSecret "s3"]

theorem claim_c1_witness :
    lw.Perm (entriesFive "test" "s3" "http://x" "2TBn") ∧
    (AstarteModBuilder.default.read uT lw).result = .ok () ∧
    ((AstarteModBuilder.default.read uT lw).state.build).2 =
      .ok ⟨"test", "s3", "http://x", "2TBn"⟩ :=
  ⟨by decide,
    (claim_c1_complete_set uT "test" "s3" "http://x" "2TBn" lw (by decide)).1,
    (claim_c1_complete_set uT "test" "s3" "http://x" "2TBn" lw (by decide)).2⟩
